import Mathlib

/-!
# Verification of the Talos Guardian Python SDK client

Shallow embedding of `sdk/python/talos/client.py`: an HTTP client wrapper
(`TalosClient`) that issues REST calls against a configured base URL and maps
JSON response bodies into typed records (`TierStatus`, `SwarmStatus`,
`Resource`, `ROI`).

Modelling decisions, each matching the Python semantics of the source:

* JSON values are the inductive `Json`; numbers are modelled as `Rat`
  (no arithmetic is ever performed on them, only identity matters).
* An HTTP response is a status code plus an optional decoded JSON body;
  `none` stands for a body that is not valid JSON, so `response.json()`
  (`HttpResponse.json` below) fails with a decode error exactly when the
  Python call would raise `json.JSONDecodeError`.
* Python dataclasses perform no runtime type validation: `ROI(**data)`
  accepts values of any type and only checks the keyword names.  The record
  fields are therefore `Json` values, and the `**`-splat call is embedded as
  a check that the object keys are exactly the declared field names
  (a missing key and an unexpected key both raise `TypeError` in Python).
* `data['k']` on a dict raises `KeyError` when `k` is absent and `TypeError`
  when `data` is not a dict; these become the `keyError`/`typeError`
  constructors of `TalosError`.  `response.raise_for_status()` raises
  `requests.exceptions.HTTPError` (the `httpError` constructor) exactly for
  status codes in `[400, 600)`.
* Each client method is a function of the client, its arguments and a server
  oracle `respond : Request → HttpResponse`; it returns the result together
  with the client state after the call (the Python methods never assign to
  `self` or mutate `session.headers`, and the embedding makes that frame
  property an explicit theorem).
* The `requests.Session` default headers (User-Agent etc.) are outside the
  source; `sessionHeaders` models exactly the headers the client code
  installs, i.e. the optional Authorization header.
-/

/-- A JSON value, as produced by Python's `json` decoding of a response body.
Numbers are modelled as rationals: the client never computes with them. -/
inductive Json where
  | null : Json
  | bool (b : Bool) : Json
  | num (q : Rat) : Json
  | str (s : String) : Json
  | arr (elems : List Json) : Json
  | obj (entries : List (String × Json)) : Json

/-- Python `d[k]` lookup on a decoded JSON object: the value at the first
entry whose key is `k` (decoded dicts have unique keys). -/
def lookupKey (kvs : List (String × Json)) (k : String) : Option Json :=
  (kvs.find? (fun kv => kv.1 == k)).map (·.2)

/-- Errors a client call can raise, one constructor per Python exception
class reaching the caller:
`httpError` is `requests.exceptions.HTTPError` from `raise_for_status`
(carrying the status code and the response body),
`jsonDecodeError` is `json.JSONDecodeError` from `response.json()`,
`keyError` is `KeyError` from `data['k']`,
`typeError` is `TypeError` from a dataclass `**`-splat call with missing or
unexpected keywords, or from indexing/iterating a value of the wrong shape. -/
inductive TalosError where
  | httpError (status : Nat) (body : Option Json) : TalosError
  | jsonDecodeError : TalosError
  | keyError (key : String) : TalosError
  | typeError : TalosError

/-- Deserialization failures: every error other than the HTTP-status
failure raised by `raise_for_status`. -/
def TalosError.isDeserialization : TalosError → Bool
  | .httpError _ _ => false
  | .jsonDecodeError => true
  | .keyError _ => true
  | .typeError => true

/-- `@dataclass class TierStatus` — status of an AI tier.  Declared Python
types: tier:int, name:str, model:str, active:bool, requests_today:int,
avg_latency_ms:float, success_rate:float, status:str; dataclasses do not
enforce them at runtime, so fields hold the JSON values as passed. -/
structure TierStatus where
  tier : Json
  name : Json
  model : Json
  active : Json
  requests_today : Json
  avg_latency_ms : Json
  success_rate : Json
  status : Json

/-- `@dataclass class SwarmStatus` — AI swarm status. -/
structure SwarmStatus where
  active_tier : Json
  tier_status : List TierStatus
  current_action : Json
  queue_depth : Json

/-- `@dataclass class Resource` — cloud resource. -/
structure Resource where
  id : Json
  type : Json
  provider : Json
  region : Json
  cost_per_month : Json
  optimization_score : Json
  tags : Json

/-- `@dataclass class ROI` — ROI metrics. -/
structure ROI where
  ratio : Json
  total_savings : Json
  total_cost : Json
  net_profit : Json

/-- The declared field names of `TierStatus`, in declaration order. -/
def tierStatusFields : List String :=
  ["tier", "name", "model", "active", "requests_today",
   "avg_latency_ms", "success_rate", "status"]

/-- The declared field names of `SwarmStatus`, in declaration order. -/
def swarmStatusFields : List String :=
  ["active_tier", "tier_status", "current_action", "queue_depth"]

/-- The declared field names of `Resource`, in declaration order. -/
def resourceFields : List String :=
  ["id", "type", "provider", "region", "cost_per_month",
   "optimization_score", "tags"]

/-- The declared field names of `ROI`, in declaration order. -/
def roiFields : List String :=
  ["ratio", "total_savings", "total_cost", "net_profit"]

/-- `TierStatus(**t)`: `t` must be a JSON object whose keys are exactly the
eight declared fields; a missing or unexpected keyword raises `TypeError`. -/
def tierStatusOfJson : Json → Except TalosError TierStatus
  | .obj kvs =>
    match lookupKey kvs "tier", lookupKey kvs "name", lookupKey kvs "model",
          lookupKey kvs "active", lookupKey kvs "requests_today",
          lookupKey kvs "avg_latency_ms", lookupKey kvs "success_rate",
          lookupKey kvs "status" with
    | some t, some n, some m, some a, some rq, some al, some sr, some st =>
      if kvs.all (fun kv => decide (kv.1 ∈ tierStatusFields)) then
        .ok ⟨t, n, m, a, rq, al, sr, st⟩
      else
        .error .typeError
    | _, _, _, _, _, _, _, _ => .error .typeError
  | _ => .error .typeError

/-- `ROI(**data)`: keys must be exactly the four declared fields. -/
def roiOfJson : Json → Except TalosError ROI
  | .obj kvs =>
    match lookupKey kvs "ratio", lookupKey kvs "total_savings",
          lookupKey kvs "total_cost", lookupKey kvs "net_profit" with
    | some r, some ts, some tc, some np =>
      if kvs.all (fun kv => decide (kv.1 ∈ roiFields)) then
        .ok ⟨r, ts, tc, np⟩
      else
        .error .typeError
    | _, _, _, _ => .error .typeError
  | _ => .error .typeError

/-- `Resource(**r)`: keys must be exactly the seven declared fields. -/
def resourceOfJson : Json → Except TalosError Resource
  | .obj kvs =>
    match lookupKey kvs "id", lookupKey kvs "type", lookupKey kvs "provider",
          lookupKey kvs "region", lookupKey kvs "cost_per_month",
          lookupKey kvs "optimization_score", lookupKey kvs "tags" with
    | some i, some ty, some p, some rg, some cm, some os, some tg =>
      if kvs.all (fun kv => decide (kv.1 ∈ resourceFields)) then
        .ok ⟨i, ty, p, rg, cm, os, tg⟩
      else
        .error .typeError
    | _, _, _, _, _, _, _ => .error .typeError
  | _ => .error .typeError

/-- `data['k']`: `KeyError` when the key is absent from the dict,
`TypeError` when `data` is not a dict at all. -/
def Json.getKey : Json → String → Except TalosError Json
  | .obj kvs, k =>
    match lookupKey kvs k with
    | some v => .ok v
    | none => .error (.keyError k)
  | _, _ => .error .typeError

/-- `[TierStatus(**t) for t in elems]`, failing at the first bad element. -/
def tierStatusList : List Json → Except TalosError (List TierStatus)
  | [] => .ok []
  | t :: rest => do
    let x ← tierStatusOfJson t
    let xs ← tierStatusList rest
    .ok (x :: xs)

/-- `[Resource(**r) for r in elems]`, failing at the first bad element. -/
def resourceList : List Json → Except TalosError (List Resource)
  | [] => .ok []
  | r :: rest => do
    let x ← resourceOfJson r
    let xs ← resourceList rest
    .ok (x :: xs)

/-- `[TierStatus(**t) for t in tiersJson]`: the value under
`'tier_status'` must be an array to iterate into tier dicts. -/
def tierStatusArray : Json → Except TalosError (List TierStatus)
  | .arr ts => tierStatusList ts
  | _ => .error .typeError

/-- Body of `get_swarm_status` after `response.json()`: builds `SwarmStatus`
from explicit `data['…']` lookups, parsing each tier with `TierStatus(**t)`. -/
def swarmStatusOfJson (data : Json) : Except TalosError SwarmStatus := do
  let activeTier ← data.getKey "active_tier"
  let tiersJson ← data.getKey "tier_status"
  let tiers ← tierStatusArray tiersJson
  let currentAction ← data.getKey "current_action"
  let queueDepth ← data.getKey "queue_depth"
  .ok ⟨activeTier, tiers, currentAction, queueDepth⟩

/-- Body of `get_resources` after `response.json()`: the body must be an
array whose elements each build a `Resource(**r)`. -/
def resourcesOfJson : Json → Except TalosError (List Resource)
  | .arr rs => resourceList rs
  | _ => .error .typeError

/-- Body of `chat` after `response.json()`: `response.json()['response']`. -/
def chatOfJson (data : Json) : Except TalosError Json :=
  data.getKey "response"

/-- An HTTP response as seen by the client: the status code and the decoded
JSON body (`none` when the body is not valid JSON, so that `.json()`
raises). -/
structure HttpResponse where
  status : Nat
  body : Option Json

/-- `response.raise_for_status()`: `requests` raises `HTTPError` exactly for
status codes in `[400, 500)` (client error) and `[500, 600)` (server
error); the error carries the status and the response. -/
def raiseForStatus (resp : HttpResponse) : Except TalosError Unit :=
  if 400 ≤ resp.status ∧ resp.status < 600 then
    .error (.httpError resp.status resp.body)
  else
    .ok ()

/-- `response.json()`: the decoded body, or `JSONDecodeError`. -/
def HttpResponse.json (resp : HttpResponse) : Except TalosError Json :=
  match resp.body with
  | some j => .ok j
  | none => .error .jsonDecodeError

/-- HTTP method of a request. -/
inductive HttpMethod where
  | get : HttpMethod
  | post : HttpMethod

/-- A request as issued through the `requests.Session`: method, URL, query
parameters, the session headers in force, and the optional JSON body. -/
structure Request where
  method : HttpMethod
  url : String
  params : List (String × String)
  headers : List (String × String)
  jsonBody : Option Json

/-- Python `s.rstrip('/')`: remove every trailing `'/'` character. -/
def rstripSlash (s : String) : String :=
  ⟨(s.data.reverse.dropWhile (fun c => c = '/')).reverse⟩

/-- Python truthiness of an `Optional[str]`: `None` and `""` are falsy. -/
def truthyStr : Option String → Bool
  | none => false
  | some s => s ≠ ""

/-- The client state: base URL (trailing slashes stripped), the optional
API key, and the headers installed on the `requests.Session` by the
constructor (the Authorization header when `api_key` is truthy). -/
structure TalosClient where
  base_url : String
  api_key : Option String
  sessionHeaders : List (String × String)

/-- `TalosClient.__init__(base_url, api_key)`: strips trailing slashes from
`base_url`, stores `api_key`, and — only when `api_key` is truthy — installs
`Authorization: Bearer <api_key>` on the session.  The Python defaults are
`base_url="http://localhost:8080"`, `api_key=None`. -/
def mkTalosClient (base_url : String) (api_key : Option String) : TalosClient :=
  { base_url := rstripSlash base_url
    api_key := api_key
    sessionHeaders :=
      if truthyStr api_key then
        [("Authorization", "Bearer " ++ api_key.getD "")]
      else
        [] }

namespace TalosClient

/-- Request issued by `health`: `GET {base_url}/health`. -/
def health_request (c : TalosClient) : Request :=
  { method := .get, url := c.base_url ++ "/health", params := [],
    headers := c.sessionHeaders, jsonBody := none }

/-- `health()`: GET `/health`, raise for status, return the JSON body. -/
def health (c : TalosClient) (respond : Request → HttpResponse) :
    Except TalosError Json × TalosClient :=
  let response := respond c.health_request
  ((do
    let _ ← raiseForStatus response
    response.json), c)

/-- Request issued by `get_swarm_status`: `GET {base_url}/api/swarm/live`. -/
def swarm_status_request (c : TalosClient) : Request :=
  { method := .get, url := c.base_url ++ "/api/swarm/live", params := [],
    headers := c.sessionHeaders, jsonBody := none }

/-- `get_swarm_status()`: GET `/api/swarm/live`, raise for status, build a
`SwarmStatus` from the JSON body. -/
def get_swarm_status (c : TalosClient) (respond : Request → HttpResponse) :
    Except TalosError SwarmStatus × TalosClient :=
  let response := respond c.swarm_status_request
  ((do
    let _ ← raiseForStatus response
    let data ← response.json
    swarmStatusOfJson data), c)

/-- The keyword arguments of `run_optimization`, with the source's default
values `type="full"`, `risk_limit=7.0`, `dry_run=True` in
`optimizationDefaults`. -/
structure OptimizationArgs where
  type : String
  risk_limit : Rat
  dry_run : Bool

/-- The default argument values of `run_optimization`: a call with no
arguments uses exactly these. -/
def optimizationDefaults : OptimizationArgs :=
  { type := "full", risk_limit := 7, dry_run := true }

/-- The request body `payload = {'type': …, 'risk_limit': …, 'dry_run': …}`
of `run_optimization`. -/
def optimizationPayload (args : OptimizationArgs) : Json :=
  .obj [("type", .str args.type),
        ("risk_limit", .num args.risk_limit),
        ("dry_run", .bool args.dry_run)]

/-- Request issued by `run_optimization`: `POST {base_url}/api/optimize`
with the payload as JSON body. -/
def run_optimization_request (c : TalosClient) (args : OptimizationArgs) :
    Request :=
  { method := .post, url := c.base_url ++ "/api/optimize", params := [],
    headers := c.sessionHeaders, jsonBody := some (optimizationPayload args) }

/-- `run_optimization(type, risk_limit, dry_run)`: POST `/api/optimize`,
raise for status, return the JSON body. -/
def run_optimization (c : TalosClient) (args : OptimizationArgs)
    (respond : Request → HttpResponse) :
    Except TalosError Json × TalosClient :=
  let response := respond (c.run_optimization_request args)
  ((do
    let _ ← raiseForStatus response
    response.json), c)

/-- The query parameters of `get_resources`: each filter is added to
`params` only when truthy (`if provider:` / `if resource_type:`). -/
def resourcesParams (provider resource_type : Option String) :
    List (String × String) :=
  (if truthyStr provider then [("provider", provider.getD "")] else []) ++
  (if truthyStr resource_type then [("type", resource_type.getD "")] else [])

/-- Request issued by `get_resources`: `GET {base_url}/api/resources` with
the filter query parameters. -/
def resources_request (c : TalosClient)
    (provider resource_type : Option String) : Request :=
  { method := .get, url := c.base_url ++ "/api/resources",
    params := resourcesParams provider resource_type,
    headers := c.sessionHeaders, jsonBody := none }

/-- `get_resources(provider, resource_type)`: GET `/api/resources`, raise
for status, build `[Resource(**r) for r in response.json()]`.  The Python
defaults are `provider=None`, `resource_type=None`. -/
def get_resources (c : TalosClient) (provider resource_type : Option String)
    (respond : Request → HttpResponse) :
    Except TalosError (List Resource) × TalosClient :=
  let response := respond (c.resources_request provider resource_type)
  ((do
    let _ ← raiseForStatus response
    let data ← response.json
    resourcesOfJson data), c)

/-- Request issued by `get_roi`: `GET {base_url}/api/roi`. -/
def roi_request (c : TalosClient) : Request :=
  { method := .get, url := c.base_url ++ "/api/roi", params := [],
    headers := c.sessionHeaders, jsonBody := none }

/-- `get_roi()`: GET `/api/roi`, raise for status, build `ROI(**data)`. -/
def get_roi (c : TalosClient) (respond : Request → HttpResponse) :
    Except TalosError ROI × TalosClient :=
  let response := respond c.roi_request
  ((do
    let _ ← raiseForStatus response
    let data ← response.json
    roiOfJson data), c)

/-- Request issued by `chat`: `POST {base_url}/api/ai/chat` with body
`{'message': message}`. -/
def chat_request (c : TalosClient) (message : String) : Request :=
  { method := .post, url := c.base_url ++ "/api/ai/chat", params := [],
    headers := c.sessionHeaders,
    jsonBody := some (.obj [("message", .str message)]) }

/-- `chat(message)`: POST `/api/ai/chat`, raise for status, return
`response.json()['response']`. -/
def chat (c : TalosClient) (message : String)
    (respond : Request → HttpResponse) :
    Except TalosError Json × TalosClient :=
  let response := respond (c.chat_request message)
  ((do
    let _ ← raiseForStatus response
    let data ← response.json
    chatOfJson data), c)

/-- Request issued by `get_recommendations`:
`GET {base_url}/api/recommendations`. -/
def recommendations_request (c : TalosClient) : Request :=
  { method := .get, url := c.base_url ++ "/api/recommendations", params := [],
    headers := c.sessionHeaders, jsonBody := none }

/-- `get_recommendations()`: GET `/api/recommendations`, raise for status,
return the JSON body. -/
def get_recommendations (c : TalosClient) (respond : Request → HttpResponse) :
    Except TalosError Json × TalosClient :=
  let response := respond c.recommendations_request
  ((do
    let _ ← raiseForStatus response
    response.json), c)

end TalosClient

/-! ## Documented response shapes

Canonical encoders for the documented JSON response shapes, used to state
round-trip identity: a body `roiJson r` is exactly a body of the documented
`/api/roi` shape whose field values are those of `r`, and similarly for the
other records. -/

/-- The documented JSON shape of one `TierStatus` object. -/
def tierStatusJson (t : TierStatus) : Json :=
  .obj [("tier", t.tier), ("name", t.name), ("model", t.model),
        ("active", t.active), ("requests_today", t.requests_today),
        ("avg_latency_ms", t.avg_latency_ms),
        ("success_rate", t.success_rate), ("status", t.status)]

/-- The documented JSON shape of the `/api/swarm/live` response body. -/
def swarmStatusJson (s : SwarmStatus) : Json :=
  .obj [("active_tier", s.active_tier),
        ("tier_status", .arr (s.tier_status.map tierStatusJson)),
        ("current_action", s.current_action),
        ("queue_depth", s.queue_depth)]

/-- The documented JSON shape of one `Resource` object. -/
def resourceJson (r : Resource) : Json :=
  .obj [("id", r.id), ("type", r.type), ("provider", r.provider),
        ("region", r.region), ("cost_per_month", r.cost_per_month),
        ("optimization_score", r.optimization_score), ("tags", r.tags)]

/-- The documented JSON shape of the `/api/roi` response body. -/
def roiJson (r : ROI) : Json :=
  .obj [("ratio", r.ratio), ("total_savings", r.total_savings),
        ("total_cost", r.total_cost), ("net_profit", r.net_profit)]

/-! ## Helper lemmas -/

theorem raiseForStatus_ok_of_2xx {resp : HttpResponse}
    (h1 : 200 ≤ resp.status) (h2 : resp.status < 300) :
    raiseForStatus resp = .ok () := by
  unfold raiseForStatus
  rw [if_neg]
  omega

theorem raiseForStatus_error_of_4xx5xx {resp : HttpResponse}
    (h1 : 400 ≤ resp.status) (h2 : resp.status < 600) :
    raiseForStatus resp = .error (.httpError resp.status resp.body) := by
  unfold raiseForStatus
  rw [if_pos]
  exact ⟨h1, h2⟩

theorem HttpResponse.json_eq_ok {resp : HttpResponse} {j : Json}
    (h : resp.body = some j) : resp.json = .ok j := by
  unfold HttpResponse.json
  rw [h]

theorem tierStatusOfJson_tierStatusJson (t : TierStatus) :
    tierStatusOfJson (tierStatusJson t) = .ok t := rfl

theorem roiOfJson_roiJson (r : ROI) : roiOfJson (roiJson r) = .ok r := rfl

theorem resourceOfJson_resourceJson (r : Resource) :
    resourceOfJson (resourceJson r) = .ok r := rfl

theorem tierStatusList_map (l : List TierStatus) :
    tierStatusList (l.map tierStatusJson) = .ok l := by
  induction l with
  | nil => rfl
  | cons x xs ih =>
    show Except.bind (tierStatusOfJson (tierStatusJson x))
      (fun y => Except.bind (tierStatusList (xs.map tierStatusJson))
        (fun ys => .ok (y :: ys))) = .ok (x :: xs)
    rw [tierStatusOfJson_tierStatusJson, ih]
    rfl

theorem resourceList_map (l : List Resource) :
    resourceList (l.map resourceJson) = .ok l := by
  induction l with
  | nil => rfl
  | cons x xs ih =>
    show Except.bind (resourceOfJson (resourceJson x))
      (fun y => Except.bind (resourceList (xs.map resourceJson))
        (fun ys => .ok (y :: ys))) = .ok (x :: xs)
    rw [resourceOfJson_resourceJson, ih]
    rfl

theorem swarmStatusOfJson_swarmStatusJson (s : SwarmStatus) :
    swarmStatusOfJson (swarmStatusJson s) = .ok s := by
  show Except.bind (tierStatusList (s.tier_status.map tierStatusJson))
    (fun tiers => .ok ⟨s.active_tier, tiers, s.current_action, s.queue_depth⟩)
    = .ok s
  rw [tierStatusList_map]
  rfl

theorem resourcesOfJson_map (l : List Resource) :
    resourcesOfJson (.arr (l.map resourceJson)) = .ok l :=
  resourceList_map l

theorem rstripSlash_append_slash (s : String) :
    rstripSlash (s ++ "/") = rstripSlash s := by
  have h : (s ++ "/").data = s.data ++ ['/'] := by
    rw [String.data_append]
  unfold rstripSlash
  rw [h, List.reverse_append]
  simp [List.dropWhile]

/-! ## Claim theorems -/

/-- C1: for every server JSON body matching the documented shape,
`get_roi`, `get_swarm_status` and `get_resources` return records whose
fields equal the corresponding input values exactly (round-trip identity);
in particular, with `base_url "http://x"` and a 2xx response body
`{"ratio":3.5,"total_savings":1000.0,"total_cost":200.0,"net_profit":800.0}`,
`get_roi()` returns a value equal to `ROI(3.5, 1000.0, 200.0, 800.0)`. -/
theorem client_roundtrip_identity :
    (∀ (c : TalosClient) (respond : Request → HttpResponse) (r : ROI),
      200 ≤ (respond c.roi_request).status →
      (respond c.roi_request).status < 300 →
      (respond c.roi_request).body = some (roiJson r) →
      (c.get_roi respond).1 = .ok r)
  ∧ (∀ (c : TalosClient) (respond : Request → HttpResponse) (s : SwarmStatus),
      200 ≤ (respond c.swarm_status_request).status →
      (respond c.swarm_status_request).status < 300 →
      (respond c.swarm_status_request).body = some (swarmStatusJson s) →
      (c.get_swarm_status respond).1 = .ok s)
  ∧ (∀ (c : TalosClient) (respond : Request → HttpResponse)
      (p rt : Option String) (rs : List Resource),
      200 ≤ (respond (c.resources_request p rt)).status →
      (respond (c.resources_request p rt)).status < 300 →
      (respond (c.resources_request p rt)).body = some (.arr (rs.map resourceJson)) →
      (c.get_resources p rt respond).1 = .ok rs)
  ∧ ((mkTalosClient "http://x" none).get_roi
      (fun _ => ⟨200, some (.obj [("ratio", .num 3.5), ("total_savings", .num 1000),
                                  ("total_cost", .num 200), ("net_profit", .num 800)])⟩)).1
      = .ok ⟨.num 3.5, .num 1000, .num 200, .num 800⟩ := by
  refine ⟨?_, ?_, ?_, ?_⟩
  · intro c respond r h1 h2 hbody
    show Except.bind (raiseForStatus (respond c.roi_request))
      (fun _ => Except.bind (respond c.roi_request).json
        (fun data => roiOfJson data)) = .ok r
    rw [raiseForStatus_ok_of_2xx h1 h2]
    show Except.bind (respond c.roi_request).json (fun data => roiOfJson data) = .ok r
    rw [HttpResponse.json_eq_ok hbody]
    exact roiOfJson_roiJson r
  · intro c respond s h1 h2 hbody
    show Except.bind (raiseForStatus (respond c.swarm_status_request))
      (fun _ => Except.bind (respond c.swarm_status_request).json
        (fun data => swarmStatusOfJson data)) = .ok s
    rw [raiseForStatus_ok_of_2xx h1 h2]
    show Except.bind (respond c.swarm_status_request).json
      (fun data => swarmStatusOfJson data) = .ok s
    rw [HttpResponse.json_eq_ok hbody]
    exact swarmStatusOfJson_swarmStatusJson s
  · intro c respond p rt rs h1 h2 hbody
    show Except.bind (raiseForStatus (respond (c.resources_request p rt)))
      (fun _ => Except.bind (respond (c.resources_request p rt)).json
        (fun data => resourcesOfJson data)) = .ok rs
    rw [raiseForStatus_ok_of_2xx h1 h2]
    show Except.bind (respond (c.resources_request p rt)).json
      (fun data => resourcesOfJson data) = .ok rs
    rw [HttpResponse.json_eq_ok hbody]
    exact resourcesOfJson_map rs
  · rfl

/-- C1 witness: the documented example scenario, instantiating each part of
the round-trip theorem at a concrete client, response and record. -/
theorem client_roundtrip_identity_witness :
    ((mkTalosClient "http://x" none).get_roi
      (fun _ => ⟨200, some (roiJson ⟨.num 3.5, .num 1000, .num 200, .num 800⟩)⟩)).1
      = .ok ⟨.num 3.5, .num 1000, .num 200, .num 800⟩
  ∧ ((mkTalosClient "http://x" none).get_swarm_status
      (fun _ => ⟨200, some (swarmStatusJson ⟨.num 1, [], .str "idle", .num 0⟩)⟩)).1
      = .ok ⟨.num 1, [], .str "idle", .num 0⟩
  ∧ ((mkTalosClient "http://x" none).get_resources none none
      (fun _ => ⟨200, some (.arr (([] : List Resource).map resourceJson))⟩)).1
      = .ok ([] : List Resource) :=
  ⟨client_roundtrip_identity.1 (mkTalosClient "http://x" none) _ _
      (by decide) (by decide) rfl,
   client_roundtrip_identity.2.1 (mkTalosClient "http://x" none) _ _
      (by decide) (by decide) rfl,
   client_roundtrip_identity.2.2.1 (mkTalosClient "http://x" none) _ none none _
      (by decide) (by decide) rfl⟩

/-- C4: a call to `run_optimization` with no arguments sends a request body
with `dry_run` equal to `true` (and `type "full"`, `risk_limit 7.0`); the
payload's `dry_run` entry always equals the caller's `dry_run` argument, so
it is never `false` unless the caller passes `dry_run=False` explicitly. -/
theorem run_optimization_default_dry_run :
    (∀ c : TalosClient,
      (c.run_optimization_request TalosClient.optimizationDefaults).jsonBody =
        some (.obj [("type", .str "full"), ("risk_limit", .num 7),
                    ("dry_run", .bool true)]))
  ∧ (∀ args : TalosClient.OptimizationArgs,
      (TalosClient.optimizationPayload args).getKey "dry_run" =
        .ok (.bool args.dry_run))
  ∧ (∀ args : TalosClient.OptimizationArgs,
      (TalosClient.optimizationPayload args).getKey "dry_run" =
        .ok (.bool false) → args.dry_run = false) := by
  refine ⟨fun c => rfl, fun args => rfl, fun args h => ?_⟩
  have h2 : (TalosClient.optimizationPayload args).getKey "dry_run" =
      .ok (.bool args.dry_run) := rfl
  rw [h2] at h
  exact Json.bool.inj (Except.ok.inj h)

/-- C4 witness: instantiating the dry-run theorem at an explicit
`dry_run=False` call. -/
theorem run_optimization_default_dry_run_witness :
    (⟨"full", 7, false⟩ : TalosClient.OptimizationArgs).dry_run = false :=
  run_optimization_default_dry_run.2.2 ⟨"full", 7, false⟩ rfl

/-- C5: `get_resources` with no filter arguments sends a request with no
query parameters; with `provider="aws"` and no `resource_type` it sends
exactly the single parameter `provider=aws` and no `type` parameter; and
each optional filter appears as a query parameter only when it was passed
(with that exact value). -/
theorem resources_query_params_only_when_present :
    (∀ c : TalosClient, (c.resources_request none none).params = [])
  ∧ (∀ c : TalosClient,
      (c.resources_request (some "aws") none).params = [("provider", "aws")])
  ∧ (∀ (c : TalosClient) (p rt : Option String) (v : String),
      ("provider", v) ∈ (c.resources_request p rt).params → p = some v)
  ∧ (∀ (c : TalosClient) (p rt : Option String) (v : String),
      ("type", v) ∈ (c.resources_request p rt).params → rt = some v) := by
  refine ⟨fun c => rfl, fun c => rfl, ?_, ?_⟩
  · intro c p rt v h
    replace h : ("provider", v) ∈ TalosClient.resourcesParams p rt := h
    unfold TalosClient.resourcesParams at h
    rw [List.mem_append] at h
    rcases h with h | h
    · cases p with
      | none => simp [truthyStr] at h
      | some s =>
        by_cases hs : s = ""
        · subst hs; simp [truthyStr] at h
        · simp [truthyStr, hs] at h
          rw [h]
    · cases rt with
      | none => simp [truthyStr] at h
      | some s =>
        by_cases hs : s = ""
        · subst hs; simp [truthyStr] at h
        · simp [truthyStr, hs] at h
  · intro c p rt v h
    replace h : ("type", v) ∈ TalosClient.resourcesParams p rt := h
    unfold TalosClient.resourcesParams at h
    rw [List.mem_append] at h
    rcases h with h | h
    · cases p with
      | none => simp [truthyStr] at h
      | some s =>
        by_cases hs : s = ""
        · subst hs; simp [truthyStr] at h
        · simp [truthyStr, hs] at h
    · cases rt with
      | none => simp [truthyStr] at h
      | some s =>
        by_cases hs : s = ""
        · subst hs; simp [truthyStr] at h
        · simp [truthyStr, hs] at h
          rw [h]

/-- C5 witness: the "provider only when present" implication instantiated
at a concrete request carrying `provider=aws`. -/
theorem resources_query_params_only_when_present_witness :
    (some "aws" : Option String) = some "aws" :=
  resources_query_params_only_when_present.2.2.1
    (mkTalosClient "http://x" none) (some "aws") none "aws" (by decide)

/-- C7: construction strips trailing slashes from the base URL, so a client
built from `base_url` and one built from `base_url ++ "/"` are equal —
they store the same base URL and every method issues identical requests. -/
theorem trailing_slash_stripped :
    ∀ (b : String) (k : Option String),
      mkTalosClient (b ++ "/") k = mkTalosClient b k
    ∧ (mkTalosClient (b ++ "/") k).base_url = (mkTalosClient b k).base_url
    ∧ (mkTalosClient (b ++ "/") k).health_request =
        (mkTalosClient b k).health_request
    ∧ (mkTalosClient (b ++ "/") k).swarm_status_request =
        (mkTalosClient b k).swarm_status_request
    ∧ (mkTalosClient (b ++ "/") k).roi_request =
        (mkTalosClient b k).roi_request
    ∧ (mkTalosClient (b ++ "/") k).recommendations_request =
        (mkTalosClient b k).recommendations_request
    ∧ (∀ args : TalosClient.OptimizationArgs,
        (mkTalosClient (b ++ "/") k).run_optimization_request args =
          (mkTalosClient b k).run_optimization_request args)
    ∧ (∀ p rt : Option String,
        (mkTalosClient (b ++ "/") k).resources_request p rt =
          (mkTalosClient b k).resources_request p rt)
    ∧ (∀ msg : String,
        (mkTalosClient (b ++ "/") k).chat_request msg =
          (mkTalosClient b k).chat_request msg) := by
  intro b k
  have h : mkTalosClient (b ++ "/") k = mkTalosClient b k := by
    unfold mkTalosClient
    rw [rstripSlash_append_slash]
  exact ⟨h, by rw [h], by rw [h], by rw [h], by rw [h], by rw [h],
         fun args => by rw [h], fun p rt => by rw [h], fun msg => by rw [h]⟩

/-- C8: every client operation leaves the client's configuration —
`base_url`, `api_key` and the session headers — unchanged, whether the call
succeeds or fails: the client returned by each method is the input client. -/
theorem client_state_unchanged :
    ∀ (c : TalosClient) (respond : Request → HttpResponse)
      (args : TalosClient.OptimizationArgs) (p rt : Option String)
      (msg : String),
      (c.health respond).2 = c
    ∧ (c.get_swarm_status respond).2 = c
    ∧ (c.run_optimization args respond).2 = c
    ∧ (c.get_resources p rt respond).2 = c
    ∧ (c.get_roi respond).2 = c
    ∧ (c.chat msg respond).2 = c
    ∧ (c.get_recommendations respond).2 = c :=
  fun _ _ _ _ _ _ => ⟨rfl, rfl, rfl, rfl, rfl, rfl, rfl⟩

/-- C10: `get_resources` treats an empty-string filter exactly like an
absent one — with `provider=""` or `resource_type=""` the issued request
equals the request with that filter absent, so the empty string is never
sent as a filter value. -/
theorem empty_filter_same_as_absent :
    ∀ (c : TalosClient) (p rt : Option String),
      c.resources_request (some "") rt = c.resources_request none rt
    ∧ c.resources_request p (some "") = c.resources_request p none :=
  fun _ _ _ => ⟨rfl, rfl⟩

theorem bind_raiseForStatus_error {α : Type} (resp : HttpResponse)
    (k : Unit → Except TalosError α)
    (h1 : 400 ≤ resp.status) (h2 : resp.status < 600) :
    Except.bind (raiseForStatus resp) k =
      .error (.httpError resp.status resp.body) := by
  rw [raiseForStatus_error_of_4xx5xx h1 h2]
  rfl

/-- C2 counterexample: a 304 response has a non-2xx status, yet `health`
does not fail with an HTTP-status failure — with a decodable body the call
succeeds, and with an undecodable body it fails with a JSON-decode failure,
showing that decoding was attempted.  `raise_for_status` only raises for
statuses in `[400, 600)`. -/
theorem non2xx_not_always_http_failure :
    (304 < 200 ∨ 300 ≤ 304)
  ∧ ((mkTalosClient "http://x" none).health
      (fun _ => ⟨304, some (.obj [("status", .str "ok")])⟩)).1
      = .ok (.obj [("status", .str "ok")])
  ∧ ((mkTalosClient "http://x" none).health (fun _ => ⟨304, none⟩)).1
      = .error .jsonDecodeError :=
  ⟨by omega, rfl, rfl⟩

/-- C2 (amended): for every client method and every HTTP response whose
status lies in `[400, 600)` (4xx/5xx), the call yields a failure carrying
the status code and body, before any JSON decoding of the success shape is
attempted (the body — even an undecodable one — is carried unexamined). -/
theorem http_failure_for_4xx5xx :
    ∀ (c : TalosClient) (respond : Request → HttpResponse)
      (args : TalosClient.OptimizationArgs) (p rt : Option String)
      (msg : String),
      (∀ req : Request, 400 ≤ (respond req).status ∧ (respond req).status < 600) →
      (c.health respond).1 =
        .error (.httpError (respond c.health_request).status
                           (respond c.health_request).body)
    ∧ (c.get_swarm_status respond).1 =
        .error (.httpError (respond c.swarm_status_request).status
                           (respond c.swarm_status_request).body)
    ∧ (c.run_optimization args respond).1 =
        .error (.httpError (respond (c.run_optimization_request args)).status
                           (respond (c.run_optimization_request args)).body)
    ∧ (c.get_resources p rt respond).1 =
        .error (.httpError (respond (c.resources_request p rt)).status
                           (respond (c.resources_request p rt)).body)
    ∧ (c.get_roi respond).1 =
        .error (.httpError (respond c.roi_request).status
                           (respond c.roi_request).body)
    ∧ (c.chat msg respond).1 =
        .error (.httpError (respond (c.chat_request msg)).status
                           (respond (c.chat_request msg)).body)
    ∧ (c.get_recommendations respond).1 =
        .error (.httpError (respond c.recommendations_request).status
                           (respond c.recommendations_request).body) := by
  intro c respond args p rt msg h
  exact ⟨bind_raiseForStatus_error _ _ (h _).1 (h _).2,
         bind_raiseForStatus_error _ _ (h _).1 (h _).2,
         bind_raiseForStatus_error _ _ (h _).1 (h _).2,
         bind_raiseForStatus_error _ _ (h _).1 (h _).2,
         bind_raiseForStatus_error _ _ (h _).1 (h _).2,
         bind_raiseForStatus_error _ _ (h _).1 (h _).2,
         bind_raiseForStatus_error _ _ (h _).1 (h _).2⟩

/-- C2 witness: the 4xx/5xx theorem instantiated at a server that always
replies 404 with body `null`. -/
theorem http_failure_for_4xx5xx_witness :
    ((mkTalosClient "http://x" none).health (fun _ => ⟨404, some .null⟩)).1
      = .error (.httpError 404 (some .null)) :=
  (http_failure_for_4xx5xx (mkTalosClient "http://x" none)
    (fun _ => ⟨404, some .null⟩) ⟨"full", 7, true⟩ none none "hi"
    (fun _ => by exact ⟨by norm_num, by norm_num⟩)).1

/-- C6 counterexample: a client constructed with the empty-string api_key —
an api_key the constructor was given — installs no Authorization header,
because `if api_key:` is false for `""` in Python. -/
theorem empty_api_key_no_auth_header :
    (mkTalosClient "http://x" (some "")).api_key = some ""
  ∧ (mkTalosClient "http://x" (some "")).health_request.headers = [] :=
  ⟨rfl, rfl⟩

/-- C6 (amended): for every client constructed with a non-empty api_key,
every request issued by every method carries the header
`Authorization: Bearer <api_key>`; for every client constructed without an
api_key, the session carries no headers, so no such authorization header is
added. -/
theorem bearer_header_on_all_requests :
    ∀ (b k : String), k ≠ "" →
      ∀ (args : TalosClient.OptimizationArgs) (p rt : Option String)
        (msg : String),
      ((mkTalosClient b (some k)).health_request.headers =
          [("Authorization", "Bearer " ++ k)]
      ∧ (mkTalosClient b (some k)).swarm_status_request.headers =
          [("Authorization", "Bearer " ++ k)]
      ∧ ((mkTalosClient b (some k)).run_optimization_request args).headers =
          [("Authorization", "Bearer " ++ k)]
      ∧ ((mkTalosClient b (some k)).resources_request p rt).headers =
          [("Authorization", "Bearer " ++ k)]
      ∧ (mkTalosClient b (some k)).roi_request.headers =
          [("Authorization", "Bearer " ++ k)]
      ∧ ((mkTalosClient b (some k)).chat_request msg).headers =
          [("Authorization", "Bearer " ++ k)]
      ∧ (mkTalosClient b (some k)).recommendations_request.headers =
          [("Authorization", "Bearer " ++ k)])
    ∧ ((mkTalosClient b none).health_request.headers = []
      ∧ (mkTalosClient b none).swarm_status_request.headers = []
      ∧ ((mkTalosClient b none).run_optimization_request args).headers = []
      ∧ ((mkTalosClient b none).resources_request p rt).headers = []
      ∧ (mkTalosClient b none).roi_request.headers = []
      ∧ ((mkTalosClient b none).chat_request msg).headers = []
      ∧ (mkTalosClient b none).recommendations_request.headers = []) := by
  intro b k hk args p rt msg
  have hcond : truthyStr (some k) = true := by simp [truthyStr, hk]
  have h1 : (mkTalosClient b (some k)).sessionHeaders =
      [("Authorization", "Bearer " ++ k)] := by
    unfold mkTalosClient
    rw [if_pos hcond]
    rfl
  have h2 : (mkTalosClient b none).sessionHeaders = [] := rfl
  exact ⟨⟨h1, h1, h1, h1, h1, h1, h1⟩, ⟨h2, h2, h2, h2, h2, h2, h2⟩⟩

/-- C6 witness: the bearer-header theorem instantiated at the non-empty
key `"secret"`. -/
theorem bearer_header_on_all_requests_witness :
    (mkTalosClient "http://x" (some "secret")).health_request.headers =
      [("Authorization", "Bearer secret")] :=
  ((bearer_header_on_all_requests "http://x" "secret" (by decide)
    ⟨"full", 7, true⟩ none none "m").1).1

/-! ## Error-path lemmas for the deserializers -/

theorem except_bind_ok {α β : Type} (a : α) (k : α → Except TalosError β) :
    Except.bind (.ok a) k = k a := rfl

theorem except_bind_error {α β : Type} (e : TalosError)
    (k : α → Except TalosError β) :
    Except.bind (.error e : Except TalosError α) k = .error e := rfl

theorem getKey_obj_none {kvs : List (String × Json)} {k : String}
    (h : lookupKey kvs k = none) :
    (Json.obj kvs).getKey k = .error (.keyError k) := by
  simp only [Json.getKey]
  rw [h]

theorem getKey_obj_some {kvs : List (String × Json)} {k : String} {v : Json}
    (h : lookupKey kvs k = some v) :
    (Json.obj kvs).getKey k = .ok v := by
  simp only [Json.getKey]
  rw [h]

theorem all_decide_mem_false {kvs : List (String × Json)} {fields : List String}
    {k : String} {v : Json} (hin : (k, v) ∈ kvs) (hk : k ∉ fields) :
    kvs.all (fun kv => decide (kv.1 ∈ fields)) = false := by
  by_contra h
  rw [Bool.not_eq_false, List.all_eq_true] at h
  exact hk (by simpa using h (k, v) hin)

theorem roiOfJson_missing {kvs : List (String × Json)} {f : String}
    (hf : f ∈ roiFields) (hmiss : lookupKey kvs f = none) :
    roiOfJson (.obj kvs) = .error .typeError := by
  simp only [roiFields, List.mem_cons, List.not_mem_nil, or_false] at hf
  simp only [roiOfJson]
  split
  · exfalso
    rcases hf with h | h | h | h <;> subst h <;> simp_all
  · rfl

theorem roiOfJson_extra {kvs : List (String × Json)} {k : String} {v : Json}
    (hin : (k, v) ∈ kvs) (hk : k ∉ roiFields) :
    roiOfJson (.obj kvs) = .error .typeError := by
  simp only [roiOfJson]
  split
  · rw [all_decide_mem_false hin hk]
    rfl
  · rfl

theorem tierStatusOfJson_missing {kvs : List (String × Json)} {f : String}
    (hf : f ∈ tierStatusFields) (hmiss : lookupKey kvs f = none) :
    tierStatusOfJson (.obj kvs) = .error .typeError := by
  simp only [tierStatusFields, List.mem_cons, List.not_mem_nil, or_false] at hf
  simp only [tierStatusOfJson]
  split
  · exfalso
    rcases hf with h | h | h | h | h | h | h | h <;> subst h <;> simp_all
  · rfl

theorem tierStatusOfJson_extra {kvs : List (String × Json)} {k : String}
    {v : Json} (hin : (k, v) ∈ kvs) (hk : k ∉ tierStatusFields) :
    tierStatusOfJson (.obj kvs) = .error .typeError := by
  simp only [tierStatusOfJson]
  split
  · rw [all_decide_mem_false hin hk]
    rfl
  · rfl

theorem resourceOfJson_missing {kvs : List (String × Json)} {f : String}
    (hf : f ∈ resourceFields) (hmiss : lookupKey kvs f = none) :
    resourceOfJson (.obj kvs) = .error .typeError := by
  simp only [resourceFields, List.mem_cons, List.not_mem_nil, or_false] at hf
  simp only [resourceOfJson]
  split
  · exfalso
    rcases hf with h | h | h | h | h | h | h <;> subst h <;> simp_all
  · rfl

theorem resourceOfJson_extra {kvs : List (String × Json)} {k : String}
    {v : Json} (hin : (k, v) ∈ kvs) (hk : k ∉ resourceFields) :
    resourceOfJson (.obj kvs) = .error .typeError := by
  simp only [resourceOfJson]
  split
  · rw [all_decide_mem_false hin hk]
    rfl
  · rfl

theorem tierStatusOfJson_error_eq {t : Json} {e : TalosError}
    (h : tierStatusOfJson t = .error e) : e = .typeError := by
  unfold tierStatusOfJson at h
  split at h
  · split at h
    · split at h
      · exact absurd h (by simp)
      · exact (Except.error.inj h).symm
    · exact (Except.error.inj h).symm
  · exact (Except.error.inj h).symm

theorem resourceOfJson_error_eq {t : Json} {e : TalosError}
    (h : resourceOfJson t = .error e) : e = .typeError := by
  unfold resourceOfJson at h
  split at h
  · split at h
    · split at h
      · exact absurd h (by simp)
      · exact (Except.error.inj h).symm
    · exact (Except.error.inj h).symm
  · exact (Except.error.inj h).symm

theorem tierStatusList_cons (a : Json) (rest : List Json) :
    tierStatusList (a :: rest) =
      Except.bind (tierStatusOfJson a)
        (fun x => Except.bind (tierStatusList rest)
          (fun xs => .ok (x :: xs))) := rfl

theorem resourceList_cons (a : Json) (rest : List Json) :
    resourceList (a :: rest) =
      Except.bind (resourceOfJson a)
        (fun x => Except.bind (resourceList rest)
          (fun xs => .ok (x :: xs))) := rfl

theorem tierStatusList_error_eq {ts : List Json} {e : TalosError}
    (h : tierStatusList ts = .error e) : e = .typeError := by
  induction ts generalizing e with
  | nil => simp [tierStatusList] at h
  | cons a rest ih =>
    rw [tierStatusList_cons] at h
    cases ha : tierStatusOfJson a with
    | error e1 =>
      rw [ha, except_bind_error] at h
      rw [← Except.error.inj h]
      exact tierStatusOfJson_error_eq ha
    | ok x =>
      simp only [ha, except_bind_ok] at h
      cases hr : tierStatusList rest with
      | error e2 =>
        rw [hr, except_bind_error] at h
        rw [← Except.error.inj h]
        exact ih hr
      | ok xs =>
        rw [hr, except_bind_ok] at h
        exact absurd h (by simp)

theorem resourceList_error_eq {rs : List Json} {e : TalosError}
    (h : resourceList rs = .error e) : e = .typeError := by
  induction rs generalizing e with
  | nil => simp [resourceList] at h
  | cons a rest ih =>
    rw [resourceList_cons] at h
    cases ha : resourceOfJson a with
    | error e1 =>
      rw [ha, except_bind_error] at h
      rw [← Except.error.inj h]
      exact resourceOfJson_error_eq ha
    | ok x =>
      simp only [ha, except_bind_ok] at h
      cases hr : resourceList rest with
      | error e2 =>
        rw [hr, except_bind_error] at h
        rw [← Except.error.inj h]
        exact ih hr
      | ok xs =>
        rw [hr, except_bind_ok] at h
        exact absurd h (by simp)

theorem tierStatusList_error_of_mem {ts : List Json} {t : Json}
    (ht : t ∈ ts) {e : TalosError} (he : tierStatusOfJson t = .error e) :
    tierStatusList ts = .error .typeError := by
  induction ts with
  | nil => cases ht
  | cons a rest ih =>
    rw [tierStatusList_cons]
    rcases List.mem_cons.mp ht with h | h
    · subst h
      rw [he, tierStatusOfJson_error_eq he, except_bind_error]
    · cases ha : tierStatusOfJson a with
      | error e1 =>
        rw [except_bind_error, tierStatusOfJson_error_eq ha]
      | ok x =>
        simp only [except_bind_ok, ih h, except_bind_error]

theorem resourceList_error_of_mem {rs : List Json} {r : Json}
    (hr : r ∈ rs) {e : TalosError} (he : resourceOfJson r = .error e) :
    resourceList rs = .error .typeError := by
  induction rs with
  | nil => cases hr
  | cons a rest ih =>
    rw [resourceList_cons]
    rcases List.mem_cons.mp hr with h | h
    · subst h
      rw [he, resourceOfJson_error_eq he, except_bind_error]
    · cases ha : resourceOfJson a with
      | error e1 =>
        rw [except_bind_error, resourceOfJson_error_eq ha]
      | ok x =>
        simp only [except_bind_ok, ih h, except_bind_error]

theorem tierStatusArray_error_eq {j : Json} {e : TalosError}
    (h : tierStatusArray j = .error e) : e = .typeError := by
  unfold tierStatusArray at h
  split at h
  · exact tierStatusList_error_eq h
  · exact (Except.error.inj h).symm

theorem swarmStatusOfJson_obj (kvs : List (String × Json)) :
    swarmStatusOfJson (.obj kvs) =
      Except.bind ((Json.obj kvs).getKey "active_tier") (fun activeTier =>
        Except.bind ((Json.obj kvs).getKey "tier_status") (fun tiersJson =>
          Except.bind (tierStatusArray tiersJson) (fun tiers =>
            Except.bind ((Json.obj kvs).getKey "current_action")
              (fun currentAction =>
                Except.bind ((Json.obj kvs).getKey "queue_depth")
                  (fun queueDepth =>
                    .ok ⟨activeTier, tiers, currentAction, queueDepth⟩))))) :=
  rfl

theorem swarmStatusOfJson_missing {kvs : List (String × Json)} {f : String}
    (hf : f ∈ swarmStatusFields) (hmiss : lookupKey kvs f = none) :
    ∃ e, swarmStatusOfJson (.obj kvs) = .error e ∧
      e.isDeserialization = true := by
  have hf4 : f = "active_tier" ∨ f = "tier_status" ∨ f = "current_action" ∨
      f = "queue_depth" := by
    simpa [swarmStatusFields] using hf
  rw [swarmStatusOfJson_obj]
  cases h1 : lookupKey kvs "active_tier" with
  | none =>
    simp only [getKey_obj_none h1, except_bind_error]
    exact ⟨.keyError "active_tier", rfl, rfl⟩
  | some a =>
    simp only [getKey_obj_some h1, except_bind_ok]
    cases h2 : lookupKey kvs "tier_status" with
    | none =>
      simp only [getKey_obj_none h2, except_bind_error]
      exact ⟨.keyError "tier_status", rfl, rfl⟩
    | some tj =>
      simp only [getKey_obj_some h2, except_bind_ok]
      cases h3 : tierStatusArray tj with
      | error e1 =>
        simp only [h3, except_bind_error]
        exact ⟨e1, rfl, by rw [tierStatusArray_error_eq h3]; rfl⟩
      | ok tiers =>
        simp only [h3, except_bind_ok]
        cases h4 : lookupKey kvs "current_action" with
        | none =>
          simp only [getKey_obj_none h4, except_bind_error]
          exact ⟨.keyError "current_action", rfl, rfl⟩
        | some ca =>
          simp only [getKey_obj_some h4, except_bind_ok]
          cases h5 : lookupKey kvs "queue_depth" with
          | none =>
            simp only [getKey_obj_none h5, except_bind_error]
            exact ⟨.keyError "queue_depth", rfl, rfl⟩
          | some qd =>
            exfalso
            rcases hf4 with h | h | h | h <;> subst h <;> simp_all

theorem get_roi_parse {c : TalosClient} {respond : Request → HttpResponse}
    {j : Json} (h1 : 200 ≤ (respond c.roi_request).status)
    (h2 : (respond c.roi_request).status < 300)
    (hbody : (respond c.roi_request).body = some j) :
    (c.get_roi respond).1 = roiOfJson j := by
  show Except.bind (raiseForStatus (respond c.roi_request))
    (fun _ => Except.bind (respond c.roi_request).json
      (fun data => roiOfJson data)) = roiOfJson j
  rw [raiseForStatus_ok_of_2xx h1 h2, except_bind_ok]
  show Except.bind (respond c.roi_request).json
    (fun data => roiOfJson data) = roiOfJson j
  rw [HttpResponse.json_eq_ok hbody, except_bind_ok]

theorem get_swarm_status_parse {c : TalosClient}
    {respond : Request → HttpResponse} {j : Json}
    (h1 : 200 ≤ (respond c.swarm_status_request).status)
    (h2 : (respond c.swarm_status_request).status < 300)
    (hbody : (respond c.swarm_status_request).body = some j) :
    (c.get_swarm_status respond).1 = swarmStatusOfJson j := by
  show Except.bind (raiseForStatus (respond c.swarm_status_request))
    (fun _ => Except.bind (respond c.swarm_status_request).json
      (fun data => swarmStatusOfJson data)) = swarmStatusOfJson j
  rw [raiseForStatus_ok_of_2xx h1 h2, except_bind_ok]
  show Except.bind (respond c.swarm_status_request).json
    (fun data => swarmStatusOfJson data) = swarmStatusOfJson j
  rw [HttpResponse.json_eq_ok hbody, except_bind_ok]

theorem get_resources_parse {c : TalosClient}
    {respond : Request → HttpResponse} {p rt : Option String} {j : Json}
    (h1 : 200 ≤ (respond (c.resources_request p rt)).status)
    (h2 : (respond (c.resources_request p rt)).status < 300)
    (hbody : (respond (c.resources_request p rt)).body = some j) :
    (c.get_resources p rt respond).1 = resourcesOfJson j := by
  show Except.bind (raiseForStatus (respond (c.resources_request p rt)))
    (fun _ => Except.bind (respond (c.resources_request p rt)).json
      (fun data => resourcesOfJson data)) = resourcesOfJson j
  rw [raiseForStatus_ok_of_2xx h1 h2, except_bind_ok]
  show Except.bind (respond (c.resources_request p rt)).json
    (fun data => resourcesOfJson data) = resourcesOfJson j
  rw [HttpResponse.json_eq_ok hbody, except_bind_ok]

/-- C3: for every 2xx response to `get_roi`, `get_swarm_status` or
`get_resources` whose JSON body lacks a required field of the target record
(`ROI`, `SwarmStatus`, `Resource`, `TierStatus`), the call fails with a
deserialization failure — `TypeError`/`KeyError`, never an HTTP-status
failure, and no field is silently defaulted. -/
theorem missing_field_deserialization_error :
    (∀ (c : TalosClient) (respond : Request → HttpResponse)
       (kvs : List (String × Json)) (f : String),
       200 ≤ (respond c.roi_request).status →
       (respond c.roi_request).status < 300 →
       (respond c.roi_request).body = some (.obj kvs) →
       f ∈ roiFields → lookupKey kvs f = none →
       (c.get_roi respond).1 = .error .typeError)
  ∧ (∀ (c : TalosClient) (respond : Request → HttpResponse)
       (kvs : List (String × Json)) (f : String),
       200 ≤ (respond c.swarm_status_request).status →
       (respond c.swarm_status_request).status < 300 →
       (respond c.swarm_status_request).body = some (.obj kvs) →
       f ∈ swarmStatusFields → lookupKey kvs f = none →
       ∃ e, (c.get_swarm_status respond).1 = .error e ∧
         e.isDeserialization = true)
  ∧ (∀ (c : TalosClient) (respond : Request → HttpResponse)
       (p rt : Option String) (rs : List Json)
       (rkvs : List (String × Json)) (f : String),
       200 ≤ (respond (c.resources_request p rt)).status →
       (respond (c.resources_request p rt)).status < 300 →
       (respond (c.resources_request p rt)).body = some (.arr rs) →
       Json.obj rkvs ∈ rs → f ∈ resourceFields → lookupKey rkvs f = none →
       (c.get_resources p rt respond).1 = .error .typeError)
  ∧ (∀ (c : TalosClient) (respond : Request → HttpResponse)
       (a ca qd : Json) (ts : List Json)
       (tkvs : List (String × Json)) (f : String),
       200 ≤ (respond c.swarm_status_request).status →
       (respond c.swarm_status_request).status < 300 →
       (respond c.swarm_status_request).body =
         some (.obj [("active_tier", a), ("tier_status", .arr ts),
                     ("current_action", ca), ("queue_depth", qd)]) →
       Json.obj tkvs ∈ ts → f ∈ tierStatusFields → lookupKey tkvs f = none →
       (c.get_swarm_status respond).1 = .error .typeError)
  ∧ (∀ e : TalosError, e.isDeserialization = true →
       ∀ (st : Nat) (b : Option Json), e ≠ .httpError st b)
  ∧ TalosError.typeError.isDeserialization = true := by
  refine ⟨?_, ?_, ?_, ?_, ?_, rfl⟩
  · intro c respond kvs f h1 h2 hbody hf hmiss
    rw [get_roi_parse h1 h2 hbody]
    exact roiOfJson_missing hf hmiss
  · intro c respond kvs f h1 h2 hbody hf hmiss
    rw [get_swarm_status_parse h1 h2 hbody]
    exact swarmStatusOfJson_missing hf hmiss
  · intro c respond p rt rs rkvs f h1 h2 hbody hmem hf hmiss
    rw [get_resources_parse h1 h2 hbody]
    exact resourceList_error_of_mem hmem (resourceOfJson_missing hf hmiss)
  · intro c respond a ca qd ts tkvs f h1 h2 hbody hmem hf hmiss
    rw [get_swarm_status_parse h1 h2 hbody]
    have hlist : tierStatusList ts = .error .typeError :=
      tierStatusList_error_of_mem hmem (tierStatusOfJson_missing hf hmiss)
    show Except.bind (tierStatusList ts)
      (fun tiers => Except.ok (⟨a, tiers, ca, qd⟩ : SwarmStatus))
      = Except.error TalosError.typeError
    rw [hlist, except_bind_error]
  · intro e he st b hcontra
    rw [hcontra] at he
    simp [TalosError.isDeserialization] at he

/-- C3 witness: the missing-field theorem instantiated at a 2xx response
whose body is the empty object (every required field absent). -/
theorem missing_field_deserialization_error_witness :
    ((mkTalosClient "http://x" none).get_roi
      (fun _ => ⟨200, some (.obj [])⟩)).1 = .error .typeError :=
  missing_field_deserialization_error.1 (mkTalosClient "http://x" none)
    (fun _ => ⟨200, some (.obj [])⟩) [] "ratio"
    (by decide) (by decide) rfl (by decide) rfl

/-- C9: for `get_swarm_status`, `get_resources` and `get_roi`, a 2xx JSON
body containing an unexpected extra key inside a `TierStatus`, `Resource`
or `ROI` object causes a deserialization failure (`TypeError`), not silent
acceptance: the `**`-splat records reject unknown fields as well as missing
ones. -/
theorem extra_field_deserialization_error :
    (∀ (c : TalosClient) (respond : Request → HttpResponse)
       (kvs : List (String × Json)) (k : String) (v : Json),
       200 ≤ (respond c.roi_request).status →
       (respond c.roi_request).status < 300 →
       (respond c.roi_request).body = some (.obj kvs) →
       (k, v) ∈ kvs → k ∉ roiFields →
       (c.get_roi respond).1 = .error .typeError)
  ∧ (∀ (c : TalosClient) (respond : Request → HttpResponse)
       (a ca qd : Json) (ts : List Json)
       (tkvs : List (String × Json)) (k : String) (v : Json),
       200 ≤ (respond c.swarm_status_request).status →
       (respond c.swarm_status_request).status < 300 →
       (respond c.swarm_status_request).body =
         some (.obj [("active_tier", a), ("tier_status", .arr ts),
                     ("current_action", ca), ("queue_depth", qd)]) →
       Json.obj tkvs ∈ ts → (k, v) ∈ tkvs → k ∉ tierStatusFields →
       (c.get_swarm_status respond).1 = .error .typeError)
  ∧ (∀ (c : TalosClient) (respond : Request → HttpResponse)
       (p rt : Option String) (rs : List Json)
       (rkvs : List (String × Json)) (k : String) (v : Json),
       200 ≤ (respond (c.resources_request p rt)).status →
       (respond (c.resources_request p rt)).status < 300 →
       (respond (c.resources_request p rt)).body = some (.arr rs) →
       Json.obj rkvs ∈ rs → (k, v) ∈ rkvs → k ∉ resourceFields →
       (c.get_resources p rt respond).1 = .error .typeError)
  ∧ TalosError.typeError.isDeserialization = true
  ∧ (∀ (st : Nat) (b : Option Json),
       (TalosError.typeError : TalosError) ≠ .httpError st b) := by
  refine ⟨?_, ?_, ?_, rfl, fun st b h => by simp at h⟩
  · intro c respond kvs k v h1 h2 hbody hin hk
    rw [get_roi_parse h1 h2 hbody]
    exact roiOfJson_extra hin hk
  · intro c respond a ca qd ts tkvs k v h1 h2 hbody hmem hin hk
    rw [get_swarm_status_parse h1 h2 hbody]
    have hlist : tierStatusList ts = .error .typeError :=
      tierStatusList_error_of_mem hmem (tierStatusOfJson_extra hin hk)
    show Except.bind (tierStatusList ts)
      (fun tiers => Except.ok (⟨a, tiers, ca, qd⟩ : SwarmStatus))
      = Except.error TalosError.typeError
    rw [hlist, except_bind_error]
  · intro c respond p rt rs rkvs k v h1 h2 hbody hmem hin hk
    rw [get_resources_parse h1 h2 hbody]
    exact resourceList_error_of_mem hmem (resourceOfJson_extra hin hk)

/-- C9 witness: the extra-field theorem instantiated at a 2xx `/api/roi`
response whose body has all four required fields plus an extra key. -/
theorem extra_field_deserialization_error_witness :
    ((mkTalosClient "http://x" none).get_roi
      (fun _ => ⟨200, some (.obj [("ratio", .num 1), ("total_savings", .num 2),
                                  ("total_cost", .num 3), ("net_profit", .num 4),
                                  ("extra", .null)])⟩)).1
      = .error .typeError :=
  extra_field_deserialization_error.1 (mkTalosClient "http://x" none)
    (fun _ => ⟨200, some (.obj [("ratio", .num 1), ("total_savings", .num 2),
                                ("total_cost", .num 3), ("net_profit", .num 4),
                                ("extra", .null)])⟩)
    [("ratio", .num 1), ("total_savings", .num 2), ("total_cost", .num 3),
     ("net_profit", .num 4), ("extra", .null)] "extra" .null
    (by decide) (by decide) rfl (by simp) (by decide)
